import Mathlib

/-!
Verification of the paropt-service-sdk CLI and auth utilities.

Shallow embedding of `src/paropt_cli.py` and `src/paropt_sdk/utils/auth.py`.

Python runtime values that flow through the CLI (JSON/YAML documents,
response payloads) are modelled by the inductive type `PyVal`.  HTTP
responses from the remote service are modelled by `HTTPResponse`
(status code plus payload, following the `GlobusHTTPResponse` fields
`http_status` and `data` that the CLI reads).

Real time (`time.time()`) is modelled by an oracle `clock : Nat → Int`
giving the reading observed at the k-th evaluation of the `while`
condition, and the sequence of `getRunningExperiments()` responses by an
oracle `polls : Nat → HTTPResponse`.  The loop is given fuel; a run that
exhausts its fuel yields the distinguished outcome `pending` (the real
loop would simply keep iterating).
-/

namespace Paropt

/-- Python values, as far as the CLI observes them.  A Python `dict` is
modelled as an association list of string keys (runtime dicts have no
duplicate keys).  `PyVal.none` is Python's `None`. -/
inductive PyVal where
  | none
  | bool (b : Bool)
  | int (n : Int)
  | str (s : String)
  | list (elems : List PyVal)
  | dict (entries : List (String × PyVal))

mutual

/-- Structural equality on `PyVal` (helper for `pyEq`). -/
def pyBeq : PyVal → PyVal → Bool
  | .none, .none => true
  | .bool a, .bool b => a == b
  | .int a, .int b => a == b
  | .str a, .str b => a == b
  | .list xs, .list ys => pyBeqList xs ys
  | .dict xs, .dict ys => pyBeqEntries xs ys
  | _, _ => false

/-- Elementwise structural equality on lists of `PyVal`. -/
def pyBeqList : List PyVal → List PyVal → Bool
  | [], [] => true
  | x :: xs, y :: ys => pyBeq x y && pyBeqList xs ys
  | _, _ => false

/-- Entrywise structural equality on dict entries. -/
def pyBeqEntries : List (String × PyVal) → List (String × PyVal) → Bool
  | [], [] => true
  | (k1, v1) :: xs, (k2, v2) :: ys => k1 == k2 && pyBeq v1 v2 && pyBeqEntries xs ys
  | _, _ => false

end

/-- Python `==` as used by the CLI.  The comparisons the CLI performs are
against a string (`job['job_id'] == job_id`) or against `None`
(`experiment == None`); for those this is exactly Python equality.
Python's `True == 1` identification is modelled for the scalar cases;
container equality is structural (the CLI never compares containers). -/
def pyEq (a b : PyVal) : Bool :=
  match a, b with
  | .bool x, .int n => (if x then (1 : Int) else 0) == n
  | .int n, .bool x => n == (if x then (1 : Int) else 0)
  | _, _ => pyBeq a b

/-- Python subscript `v['key']`: succeeds only on a dict that has the
key; on a missing key (KeyError) or a non-dict (TypeError) it raises,
modelled as `Except.error`. -/
def pyIndex (v : PyVal) (key : String) : Except Unit PyVal :=
  match v with
  | .dict entries =>
    match entries.lookup key with
    | some w => .ok w
    | Option.none => .error ()
  | _ => .error ()

/-- A `GlobusHTTPResponse` as the CLI reads it: `http_status` and `data`. -/
structure HTTPResponse where
  http_status : Int
  data : PyVal

/-- The constant `FILE_TYPE_MSG` (paropt_cli.py line 14). -/
def FILE_TYPE_MSG : String := "Files provided must end with .yaml, .yml, or .json"

/-- The constant `SECONDS_IN_DAY` (paropt_cli.py line 15). -/
def SECONDS_IN_DAY : Int := 86400

/-- The constant `MAX_FAILS` (paropt_cli.py line 16). -/
def MAX_FAILS : Nat := 3

/-- The predicate `httpOK` (paropt_cli.py lines 28-30): status code in the
200-299 range. -/
def httpOK (response : HTTPResponse) : Bool :=
  decide (200 ≤ response.http_status) && decide (response.http_status ≤ 299)

/-- The scan over `running_jobs` (paropt_cli.py lines 77-81):
`for job in running_jobs: if job['job_id'] == job_id: running = True; break`.
Returns the final value of `running`, or `Except.error` if some
`job['job_id']` subscript raises before a match is found. -/
def scanRunning (job_id : String) : List PyVal → Except Unit Bool
  | [] => .ok false
  | job :: rest =>
    match pyIndex job "job_id" with
    | .error e => .error e
    | .ok v => if pyEq v (.str job_id) then .ok true else scanRunning job_id rest

/-- Possible results of `waitForJob`. -/
inductive WaitOutcome where
  /-- returned `True` -/
  | success
  /-- raised `Exception("Failed to wait for job: Too may failed calls/responses to api")` -/
  | tooManyFails
  /-- raised `Exception("Failed to wait for job: Reached maximum timeout")` -/
  | timeoutFail
  /-- an exception escaped from the `job['job_id']` subscript -/
  | exn
  /-- fuel exhausted while the loop would keep running -/
  | pending
  deriving Repr, DecidableEq

/-- One classification of a poll response, as the loop body
(paropt_cli.py lines 58-86) treats it. -/
inductive StepClass where
  /-- non-2xx status, or payload not a list: `n_fails += 1; continue` -/
  | soft
  /-- well-formed list containing the target job id: loop again -/
  | presentOk
  /-- well-formed list without the target job id: `return True` -/
  | absentOk
  /-- list payload on which the `job['job_id']` scan raises -/
  | exnStep
  deriving Repr, DecidableEq

/-- Classifies a poll response exactly as the loop body does. -/
def stepClass (job_id : String) (res : HTTPResponse) : StepClass :=
  if !httpOK res then .soft
  else
    match res.data with
    | .list running_jobs =>
      match scanRunning job_id running_jobs with
      | .error _ => .exnStep
      | .ok true => .presentOk
      | .ok false => .absentOk
    | _ => .soft

/-- The `while` loop of `waitForJob` (paropt_cli.py lines 58-92), with the
post-loop `if n_fails == MAX_FAILS` dispatch.  `clock k` is the
`time.time()` reading at the k-th evaluation of the loop condition and
`polls k` the k-th `getRunningExperiments()` response; `timeout` is the
deadline computed before the loop and never modified inside it. -/
def waitLoop (job_id : String) (timeout : Int) (clock : Nat → Int)
    (polls : Nat → HTTPResponse) : Nat → Nat → Nat → WaitOutcome
  | 0, _, _ => .pending
  | fuel + 1, k, n_fails =>
    if clock k < timeout ∧ n_fails < MAX_FAILS then
      match stepClass job_id (polls k) with
      | .soft => waitLoop job_id timeout clock polls fuel (k + 1) (n_fails + 1)
      | .presentOk => waitLoop job_id timeout clock polls fuel (k + 1) n_fails
      | .absentOk => .success
      | .exnStep => .exn
    else
      if n_fails = MAX_FAILS then .tooManyFails else .timeoutFail

/-- The deadline computation of `waitForJob` (paropt_cli.py lines 50-53):
`timeout = time.time() + SECONDS_IN_DAY` when `max_wait < 0`, else
`time.time() + max_wait * 60`.  `t0` is the starting `time.time()`. -/
def waitTimeout (t0 : Int) (max_wait : Int) : Int :=
  if max_wait < 0 then t0 + SECONDS_IN_DAY else t0 + max_wait * 60

/-- The assignment `sleep_interval_secs = sleep_interval * 60`
(paropt_cli.py line 55): the number of seconds slept between successive
polls. -/
def sleep_interval_secs (sleep_interval : Int) : Int := sleep_interval * 60

/-- The function `waitForJob` (paropt_cli.py lines 32-92).  The blocking
`time.sleep(sleep_interval_secs)` advances only the external clock, which
is already an oracle here, so `sleep_interval` does not influence the
computed outcome; its observable role is captured by
`sleep_interval_secs`. -/
def waitForJob (job_id : String) (max_wait : Int) (t0 : Int)
    (clock : Nat → Int) (polls : Nat → HTTPResponse) (fuel : Nat) : WaitOutcome :=
  waitLoop job_id (waitTimeout t0 max_wait) clock polls fuel 0 0

/-- Python `isinstance(x, list)` on a `PyVal`. -/
def isPyList : PyVal → Bool
  | .list _ => true
  | _ => false

/-- The number of soft-failure polls (in the sense of
`stepClass _ _ = .soft`) among `polls k, ..., polls (k + m - 1)`:
the value of `n_fails` accumulated over those `m` loop iterations when
none of them exits the loop. -/
def countSoftFrom (job_id : String) (polls : Nat → HTTPResponse) : Nat → Nat → Nat
  | _, 0 => 0
  | k, m + 1 =>
    (if stepClass job_id (polls k) = .soft then 1 else 0) +
      countSoftFrom job_id polls (k + 1) m

/-- The call site of `waitForJob` in `__main__` (paropt_cli.py lines
160-161): `waitForJob(po, submitted_job_id, args.maxwait)`.  The
`sleep_interval` argument is not passed, so the Python default value `1`
from the signature on line 32 is used: this function returns the
`sleep_interval` that `waitForJob` actually receives, as a function of
the `--sleepdur` command-line value. -/
def cliWaitSleepInterval (sleepdur : Int) : Int := 1

/-- Python `str.endswith(post)`: the characters of `post` are a suffix of
the characters of `s`. -/
def strEndsWith (s post : String) : Bool :=
  post.data.isSuffixOf s.data

/-- The function `loadYmlJson` (paropt_cli.py lines 94-102).  The YAML/JSON parsers
are external libraries; the file's contents are represented by `parsed`,
the value the relevant parser returns for them (`PyVal.none` for a file
whose document is null/empty, e.g. a JSON file containing `null` or an
empty YAML file).  For an unsupported extension the function returns
`None` without consulting the parser. -/
def loadYmlJson (file_path : String) (parsed : PyVal) : PyVal :=
  if strEndsWith file_path ".yaml" || strEndsWith file_path ".yml" then parsed
  else if strEndsWith file_path ".json" then parsed
  else .none

/-- What `__main__` does with one input file. -/
inductive LoadStep where
  /-- printed `FILE_TYPE_MSG` and called `sys.exit(1)` -/
  | exit1 (msg : String)
  /-- kept the loaded document and continued -/
  | proceed (doc : PyVal)

/-- Input loading in `__main__` (paropt_cli.py lines 125-128 and 131-134):
`experiment = loadYmlJson(path)`; `if experiment == None:
print(FILE_TYPE_MSG); sys.exit(1)`. -/
def mainLoadInput (file_path : String) (parsed : PyVal) : LoadStep :=
  let doc := loadYmlJson file_path parsed
  if pyEq doc .none then .exit1 FILE_TYPE_MSG else .proceed doc

/-- Python iteration `for exp in failed_experiments` over a `PyVal`:
iterating a list yields its elements, a string yields its one-character
substrings, a dict yields its keys; other values raise TypeError. -/
def pyIter (v : PyVal) : Except Unit (List PyVal) :=
  match v with
  | .list xs => .ok xs
  | .str s => .ok (s.toList.map fun c => .str (String.singleton c))
  | .dict entries => .ok (entries.map fun kv => .str kv.fst)
  | _ => .error ()

/-- Result of the post-wait success check in `__main__`. -/
inductive CheckOutcome where
  /-- reached `print('Successfully ran optimizations')` -/
  | successMsg
  /-- raised `Exception('Server failed to run trials. ...')` -/
  | serverFailed
  /-- an uncaught exception escaped from the `for` loop
      (TypeError / KeyError from iterating or subscripting the payload) -/
  | exnRaised
  deriving Repr, DecidableEq

/-- The loop body of the check (paropt_cli.py lines 170-174):
`for exp in failed_experiments: if exp['job_id'] == submitted_job_id:
raise ...`, followed by the success print. -/
def checkFailedLoop (submitted_job_id : PyVal) : List PyVal → CheckOutcome
  | [] => .successMsg
  | exp :: rest =>
    match pyIndex exp "job_id" with
    | .error _ => .exnRaised
    | .ok v =>
      if pyEq v submitted_job_id then .serverFailed
      else checkFailedLoop submitted_job_id rest

/-- The post-wait success check (paropt_cli.py lines 163-174).  Returns
the list of warning lines printed plus the outcome.  Note that the two
`if` statements only print; neither skips the subsequent `for` loop. -/
def checkJobSuccess (submitted_job_id : PyVal) (res : HTTPResponse) :
    List String × CheckOutcome :=
  let failed_experiments := res.data
  let msgs :=
    (if !httpOK res then ["Unable to get failed experiments, skipping..."] else [])
      ++ (match failed_experiments with
          | .list _ => []
          | _ => ["Expected response to be list, skipping..."])
  match pyIter failed_experiments with
  | .error _ => (msgs, .exnRaised)
  | .ok items => (msgs, checkFailedLoop submitted_job_id items)

end Paropt

namespace ParoptAuth

open Paropt

/-!
Model of paropt_sdk/utils/auth.py.

The config store (`lookup_option` / `write_option` / `remove_option`,
imported from `paropt_sdk.config`, which is not part of the sources) is
modelled from the spec: "Local persisted state: a config store holding
three named options (refresh token, access token, access token expiry)".
It is a finite map from the three option names to stored string values;
`lookup_option` returns `Option.none` when the entry is absent.
Network interaction (`oauth2_revoke_token`) is modelled by an oracle
`net : String → NetResult` giving, for each token value, whether the
revocation call succeeds or raises `globus_sdk.NetworkError`. -/

/-- The three config option names `PAROPT_RT_OPTNAME`,
`PAROPT_AT_OPTNAME`, `PAROPT_AT_EXPIRES_OPTNAME` (their concrete string
values live in `paropt_sdk.config`; only their distinctness matters). -/
inductive OptName where
  | rt
  | accessTok
  | atExpires
  deriving Repr, DecidableEq

/-- The local config store: entries for the three option names. -/
abbrev Store := List (OptName × String)

/-- Modelled from the spec: `lookup_option` (from `paropt_sdk.config`,
not in the sources) looks an option up in the config store and returns
the stored value, or `Option.none` when the entry is absent. -/
def lookup_option (store : Store) (k : OptName) : Option String :=
  match store with
  | [] => Option.none
  | (k', v) :: rest => if k' = k then some v else lookup_option rest k

/-- Modelled from the spec: `remove_option` (from `paropt_sdk.config`,
not in the sources) deletes an option's entry from the config store. -/
def remove_option (store : Store) (k : OptName) : Store :=
  store.filter fun kv => kv.fst ≠ k

/-- Modelled from the spec: `write_option` (from `paropt_sdk.config`,
not in the sources) stores a value under an option name. -/
def write_option (store : Store) (k : OptName) (v : String) : Store :=
  (k, v) :: remove_option store k

/-- Python truthiness test `if not token:` on a lookup result: true when
the entry is absent (None) or the stored string is empty. -/
def tokenFalsy (token : Option String) : Bool :=
  match token with
  | Option.none => true
  | some s => s.isEmpty

/-- Outcome of one `native_client.oauth2_revoke_token(token)` call. -/
inductive NetResult where
  /-- the call returned -/
  | ok
  /-- the call raised `globus_sdk.NetworkError` -/
  | networkError
  deriving Repr, DecidableEq

/-- The `for token_opt in (PAROPT_RT_OPTNAME, PAROPT_AT_OPTNAME)` loop of
`logout` (auth.py lines 74-92): skip falsy tokens with a warning,
otherwise revoke; a `NetworkError` aborts the whole logout (`return`,
leaving the store as it is); on success remove the entry. -/
def logoutLoop (net : String → NetResult) : Store → List OptName → Store
  | store, [] => remove_option store .atExpires
  | store, token_opt :: rest =>
    let token := lookup_option store token_opt
    if tokenFalsy token then logoutLoop net store rest
    else
      match net (token.getD "") with
      | .networkError => store
      | .ok => logoutLoop net (remove_option store token_opt) rest

/-- The function `logout` (auth.py lines 65-95): iterate over the
refresh- and access-token options, then (if never aborted) remove the
expiry entry. -/
def logout (net : String → NetResult) (store : Store) : Store :=
  logoutLoop net store [.rt, .accessTok]

/-- The `for token_opt in (PAROPT_RT_OPTNAME, PAROPT_AT_OPTNAME)` loop
of `_revoke_current_tokens` (auth.py lines 105-108): for each option, if
a token is stored (truthy), call `oauth2_revoke_token(token)` with no
exception handling, so the first `NetworkError` propagates.  Returns
`.ok` when every performed call succeeded. -/
def revokeTokensLoop (net : String → NetResult) (store : Store) : List OptName → NetResult
  | [] => .ok
  | token_opt :: rest =>
    let token := lookup_option store token_opt
    if tokenFalsy token then revokeTokensLoop net store rest
    else
      match net (token.getD "") with
      | .networkError => .networkError
      | .ok => revokeTokensLoop net store rest

/-- The function `_revoke_current_tokens` (auth.py lines 98-108). -/
def _revoke_current_tokens (net : String → NetResult) (store : Store) : NetResult :=
  revokeTokensLoop net store [.rt, .accessTok]

/-- The token triple extracted from the exchange response by
`_store_config` (auth.py lines 118-122):
`tkn['paropt_service']` fields `access_token`, `refresh_token`,
`expires_at_seconds` (the expiry is stored as written). -/
structure TokenResponse where
  access_token : String
  refresh_token : String
  expires_at_seconds : String

/-- The function `_store_config` (auth.py lines 111-126): writes the
three options. -/
def _store_config (store : Store) (tkn : TokenResponse) : Store :=
  write_option
    (write_option (write_option store .rt tkn.refresh_token) .accessTok tkn.access_token)
    .atExpires tkn.expires_at_seconds

/-- Python name resolution for an identifier used in `do_login_flow`,
against the names actually in scope there. -/
def resolveName (env : List String) (n : String) : Except Unit String :=
  if n ∈ env then .ok n else .error ()

/-- The identifiers in scope at auth.py line 27 (inside `do_login_flow`,
after the assignments on lines 20-24): the function's locals so far, the
module's imports (lines 4-10), and the module's own top-level
definitions.  `FUNCX_SCOPE` is not among them. -/
def loginFlowScopeNames : List String :=
  ["native_client", "label", "PAROPT_SCOPE",
   "platform", "globus_sdk", "RefreshTokenAuthorizer",
   "internal_auth_client", "safeprint", "lookup_option", "write_option",
   "remove_option", "check_logged_in",
   "PAROPT_RT_OPTNAME", "PAROPT_AT_OPTNAME", "PAROPT_AT_EXPIRES_OPTNAME",
   "do_login_flow", "make_authorizer", "logout",
   "_revoke_current_tokens", "_store_config"]

/-- Outcome of `do_login_flow`. -/
inductive LoginOutcome where
  /-- a `NameError` was raised evaluating an identifier -/
  | nameError
  /-- a `globus_sdk.NetworkError` escaped (uncaught) from
      `_revoke_current_tokens` -/
  | networkErrorRaised
  /-- the flow ran to completion and persisted the given store -/
  | completed (store : Store)
  deriving DecidableEq

/-- The tail of `do_login_flow` after the code exchange (auth.py lines
36-37): `_revoke_current_tokens(native_client)` — with no exception
handling around it — then `_store_config(tkn)`. -/
def loginStoreStep (net : String → NetResult) (store : Store)
    (tkn : TokenResponse) : LoginOutcome :=
  match _revoke_current_tokens net store with
  | .networkError => .networkErrorRaised
  | .ok => .completed (_store_config store tkn)

/-- The function `do_login_flow` (auth.py lines 13-37).  Execution
order: lines 20-24
bind locals (including `PAROPT_SCOPE`); line 27 evaluates `FUNCX_SCOPE`
to build the `oauth2_start_flow` arguments — resolving that identifier
raises `NameError` if it is not in scope; only then would the flow
prompt, exchange the code for `tkn`, and run lines 36-37.  `tkn` is the
response the exchange would produce. -/
def do_login_flow (net : String → NetResult) (store : Store)
    (tkn : TokenResponse) : LoginOutcome :=
  match resolveName loginFlowScopeNames "FUNCX_SCOPE" with
  | .error _ => .nameError
  | .ok _ => loginStoreStep net store tkn

end ParoptAuth

namespace Paropt

/-! Helper lemmas about the `waitForJob` loop. -/

/-- When the `while` condition fails, the loop exits and dispatches on
`n_fails == MAX_FAILS`. -/
theorem waitLoop_exit (job_id : String) (timeout : Int) (clock : Nat → Int)
    (polls : Nat → HTTPResponse) (fuel k n_fails : Nat)
    (h : ¬(clock k < timeout ∧ n_fails < MAX_FAILS)) :
    waitLoop job_id timeout clock polls (fuel + 1) k n_fails =
      if n_fails = MAX_FAILS then .tooManyFails else .timeoutFail := by
  rw [waitLoop, if_neg h]

/-- A poll classified as a soft failure increments `n_fails` by exactly
one and continues the loop with the same (unchanged) deadline. -/
theorem waitLoop_step_soft (job_id : String) (timeout : Int) (clock : Nat → Int)
    (polls : Nat → HTTPResponse) (fuel k n_fails : Nat)
    (hg : clock k < timeout ∧ n_fails < MAX_FAILS)
    (hc : stepClass job_id (polls k) = .soft) :
    waitLoop job_id timeout clock polls (fuel + 1) k n_fails =
      waitLoop job_id timeout clock polls fuel (k + 1) (n_fails + 1) := by
  rw [waitLoop, if_pos hg, hc]

/-- A well-formed poll that still lists the job continues the loop with
`n_fails` unchanged. -/
theorem waitLoop_step_present (job_id : String) (timeout : Int) (clock : Nat → Int)
    (polls : Nat → HTTPResponse) (fuel k n_fails : Nat)
    (hg : clock k < timeout ∧ n_fails < MAX_FAILS)
    (hc : stepClass job_id (polls k) = .presentOk) :
    waitLoop job_id timeout clock polls (fuel + 1) k n_fails =
      waitLoop job_id timeout clock polls fuel (k + 1) n_fails := by
  rw [waitLoop, if_pos hg, hc]

/-- A well-formed poll from which the job is absent returns success. -/
theorem waitLoop_step_absent (job_id : String) (timeout : Int) (clock : Nat → Int)
    (polls : Nat → HTTPResponse) (fuel k n_fails : Nat)
    (hg : clock k < timeout ∧ n_fails < MAX_FAILS)
    (hc : stepClass job_id (polls k) = .absentOk) :
    waitLoop job_id timeout clock polls (fuel + 1) k n_fails = .success := by
  rw [waitLoop, if_pos hg, hc]

/-- Congruence in the `Nat` arguments of `waitLoop`. -/
theorem waitLoop_congr_args (job_id : String) (timeout : Int) (clock : Nat → Int)
    (polls : Nat → HTTPResponse) {f1 f2 k1 k2 n1 n2 : Nat}
    (hf : f1 = f2) (hk : k1 = k2) (hn : n1 = n2) :
    waitLoop job_id timeout clock polls f1 k1 n1 =
      waitLoop job_id timeout clock polls f2 k2 n2 := by
  rw [hf, hk, hn]

/-- Running the loop through a prefix of `m` iterations in which every
check happens before the deadline, every poll either soft-fails or shows
the job still running, and the accumulated failure count stays below
`MAX_FAILS`, lands at iteration `k + m` with the soft failures added up. -/
theorem waitLoop_run_initial (job_id : String) (timeout : Int) (clock : Nat → Int)
    (polls : Nat → HTTPResponse) :
    ∀ (m fuel k n_fails : Nat), m ≤ fuel →
      n_fails + countSoftFrom job_id polls k m < MAX_FAILS →
      (∀ i, i < m → clock (k + i) < timeout) →
      (∀ i, i < m → stepClass job_id (polls (k + i)) = .soft ∨
        stepClass job_id (polls (k + i)) = .presentOk) →
      waitLoop job_id timeout clock polls fuel k n_fails =
        waitLoop job_id timeout clock polls (fuel - m) (k + m)
          (n_fails + countSoftFrom job_id polls k m) := by
  intro m
  induction m with
  | zero =>
    intro fuel k n_fails _ _ _ _
    simp [countSoftFrom]
  | succ m ih =>
    intro fuel k n_fails hfuel hcnt hclk hcls
    obtain ⟨f, rfl⟩ : ∃ f, fuel = f + 1 := ⟨fuel - 1, by omega⟩
    have hM : MAX_FAILS = 3 := rfl
    have hck : clock k < timeout := by simpa using hclk 0 (by omega)
    have hclk' : ∀ i, i < m → clock (k + 1 + i) < timeout := by
      intro i hi
      have h := hclk (i + 1) (by omega)
      have e : k + (i + 1) = k + 1 + i := by omega
      rwa [e] at h
    have hcls' : ∀ i, i < m → stepClass job_id (polls (k + 1 + i)) = .soft ∨
        stepClass job_id (polls (k + 1 + i)) = .presentOk := by
      intro i hi
      have h := hcls (i + 1) (by omega)
      have e : k + (i + 1) = k + 1 + i := by omega
      rwa [e] at h
    rcases hcls 0 (by omega) with hc | hc <;> rw [Nat.add_zero] at hc
    · have hcnt1 : countSoftFrom job_id polls k (m + 1) =
          1 + countSoftFrom job_id polls (k + 1) m := by
        simp [countSoftFrom, hc]
      rw [hcnt1] at hcnt
      have hg : clock k < timeout ∧ n_fails < MAX_FAILS := ⟨hck, by omega⟩
      rw [waitLoop_step_soft job_id timeout clock polls f k n_fails hg hc,
        ih f (k + 1) (n_fails + 1) (by omega) (by omega) hclk' hcls']
      exact waitLoop_congr_args job_id timeout clock polls (by omega) (by omega)
        (by rw [hcnt1]; omega)
    · have hcnt1 : countSoftFrom job_id polls k (m + 1) =
          countSoftFrom job_id polls (k + 1) m := by
        simp [countSoftFrom, hc]
      rw [hcnt1] at hcnt
      have hg : clock k < timeout ∧ n_fails < MAX_FAILS := ⟨hck, by omega⟩
      rw [waitLoop_step_present job_id timeout clock polls f k n_fails hg hc,
        ih f (k + 1) n_fails (by omega) (by omega) hclk' hcls']
      exact waitLoop_congr_args job_id timeout clock polls (by omega) (by omega)
        (by rw [hcnt1])

/-- If the polls performed while the loop runs accumulate `MAX_FAILS`
soft failures — each poll before that point happening before the
deadline and either soft-failing or showing the job still running — the
loop ends with the too-many-failed-calls failure, regardless of the
clock from then on. -/
theorem waitLoop_reaches_tooMany (job_id : String) (timeout : Int) (clock : Nat → Int)
    (polls : Nat → HTTPResponse) :
    ∀ (m fuel k n_fails : Nat), m < fuel → n_fails ≤ MAX_FAILS →
      MAX_FAILS ≤ n_fails + countSoftFrom job_id polls k m →
      (∀ i, i < m → clock (k + i) < timeout) →
      (∀ i, i < m → stepClass job_id (polls (k + i)) = .soft ∨
        stepClass job_id (polls (k + i)) = .presentOk) →
      waitLoop job_id timeout clock polls fuel k n_fails = .tooManyFails := by
  intro m
  induction m with
  | zero =>
    intro fuel k n_fails hfuel hle hge _ _
    obtain ⟨f, rfl⟩ : ∃ f, fuel = f + 1 := ⟨fuel - 1, by omega⟩
    simp only [countSoftFrom] at hge
    have hn : n_fails = MAX_FAILS := by omega
    rw [waitLoop_exit job_id timeout clock polls f k n_fails (by omega), if_pos hn]
  | succ m ih =>
    intro fuel k n_fails hfuel hle hge hclk hcls
    obtain ⟨f, rfl⟩ : ∃ f, fuel = f + 1 := ⟨fuel - 1, by omega⟩
    by_cases hn : n_fails < MAX_FAILS
    · have hck : clock k < timeout := by simpa using hclk 0 (by omega)
      have hg : clock k < timeout ∧ n_fails < MAX_FAILS := ⟨hck, hn⟩
      have hclk' : ∀ i, i < m → clock (k + 1 + i) < timeout := by
        intro i hi
        have h := hclk (i + 1) (by omega)
        have e : k + (i + 1) = k + 1 + i := by omega
        rwa [e] at h
      have hcls' : ∀ i, i < m → stepClass job_id (polls (k + 1 + i)) = .soft ∨
          stepClass job_id (polls (k + 1 + i)) = .presentOk := by
        intro i hi
        have h := hcls (i + 1) (by omega)
        have e : k + (i + 1) = k + 1 + i := by omega
        rwa [e] at h
      rcases hcls 0 (by omega) with hc | hc <;> rw [Nat.add_zero] at hc
      · have hcnt1 : countSoftFrom job_id polls k (m + 1) =
            1 + countSoftFrom job_id polls (k + 1) m := by
          simp [countSoftFrom, hc]
        rw [hcnt1] at hge
        rw [waitLoop_step_soft job_id timeout clock polls f k n_fails hg hc]
        exact ih f (k + 1) (n_fails + 1) (by omega) (by omega) (by omega) hclk' hcls'
      · have hcnt1 : countSoftFrom job_id polls k (m + 1) =
            countSoftFrom job_id polls (k + 1) m := by
          simp [countSoftFrom, hc]
        rw [hcnt1] at hge
        rw [waitLoop_step_present job_id timeout clock polls f k n_fails hg hc]
        exact ih f (k + 1) n_fails (by omega) hle (by omega) hclk' hcls'
    · have heq : n_fails = MAX_FAILS := by omega
      rw [waitLoop_exit job_id timeout clock polls f k n_fails (by omega), if_pos heq]

end Paropt

namespace Paropt

/-- A poll with a non-2xx status, or whose payload is not a list, is
classified as a soft failure. -/
theorem stepClass_soft_of (job_id : String) (res : HTTPResponse)
    (h : httpOK res = false ∨ isPyList res.data = false) :
    stepClass job_id res = .soft := by
  by_cases hok : httpOK res = true
  · have hl : isPyList res.data = false := by
      rcases h with h | h
      · rw [hok] at h; cases h
      · exact h
    unfold stepClass
    rw [hok]
    cases hd : res.data <;> simp_all [isPyList]
  · have hok' : httpOK res = false := by
      cases hv : httpOK res
      · rfl
      · exact absurd hv hok
    simp [stepClass, hok']

/-- Peeling the last iteration off a soft-failure count. -/
theorem countSoftFrom_succ_right (job_id : String) (polls : Nat → HTTPResponse) :
    ∀ (m k : Nat), countSoftFrom job_id polls k (m + 1) =
      countSoftFrom job_id polls k m +
        (if stepClass job_id (polls (k + m)) = .soft then 1 else 0) := by
  intro m
  induction m with
  | zero => intro k; simp [countSoftFrom]
  | succ m ih =>
    intro k
    have e : k + 1 + m = k + (m + 1) := by omega
    calc countSoftFrom job_id polls k (m + 1 + 1)
        = (if stepClass job_id (polls k) = .soft then 1 else 0) +
            countSoftFrom job_id polls (k + 1) (m + 1) := by
          rw [countSoftFrom]
      _ = (if stepClass job_id (polls k) = .soft then 1 else 0) +
            (countSoftFrom job_id polls (k + 1) m +
              (if stepClass job_id (polls (k + 1 + m)) = .soft then 1 else 0)) := by
          rw [ih (k + 1)]
      _ = countSoftFrom job_id polls k (m + 1) +
            (if stepClass job_id (polls (k + (m + 1))) = .soft then 1 else 0) := by
          rw [countSoftFrom, e]
          omega

/-- C1: the claim fails on the code.  At paropt_cli.py line 161 the CLI
calls `waitForJob(po, submitted_job_id, args.maxwait)` without
forwarding `args.sleepdur`, so `waitForJob` always receives the default
`sleep_interval = 1` from its signature (line 32) and sleeps
`1 * 60 = 60` seconds between polls, whatever `--sleepdur` was: with
`--sleepdur 2` the poll interval is 1 minute, not 2. -/
theorem cliWait_sleep_interval_is_default :
    (∀ sleepdur : Int, cliWaitSleepInterval sleepdur = 1) ∧
    sleep_interval_secs (cliWaitSleepInterval 2) = 60 ∧
    cliWaitSleepInterval 2 ≠ 2 :=
  ⟨fun _ => rfl, rfl, by decide⟩

/-- C10: an input file with a supported extension whose contents parse
to a null/empty document makes the CLI behave exactly like an
unsupported file type: `loadYmlJson` hands back Python `None`, the
`experiment == None` check fires, the fixed `FILE_TYPE_MSG` is printed
and the process exits with code 1 — the same outcome as for a file with
an unsupported extension. -/
theorem null_document_exits_like_bad_file_type (path other : String) (parsed : PyVal)
    (hsupported : strEndsWith path ".yaml" = true ∨ strEndsWith path ".yml" = true ∨
      strEndsWith path ".json" = true)
    (h1 : strEndsWith other ".yaml" = false) (h2 : strEndsWith other ".yml" = false)
    (h3 : strEndsWith other ".json" = false) :
    mainLoadInput path PyVal.none = .exit1 FILE_TYPE_MSG ∧
    mainLoadInput other parsed = .exit1 FILE_TYPE_MSG := by
  constructor
  · rcases hsupported with h | h | h <;>
      simp [mainLoadInput, loadYmlJson, h, pyEq, pyBeq]
  · simp [mainLoadInput, loadYmlJson, h1, h2, h3, pyEq, pyBeq]

/-- Witness for C10 at a concrete JSON file parsing to null and a
concrete unsupported file. -/
theorem null_document_exits_like_bad_file_type_witness :
    mainLoadInput "experiment.json" PyVal.none = .exit1 FILE_TYPE_MSG ∧
    mainLoadInput "experiment.txt" (PyVal.dict []) = .exit1 FILE_TYPE_MSG :=
  null_document_exits_like_bad_file_type "experiment.json" "experiment.txt"
    (PyVal.dict []) (Or.inr (Or.inr (by decide))) (by decide) (by decide) (by decide)

/-- C9: the two "skipping" branches of the post-wait check only print;
the `for` loop over the payload runs regardless.  A 2xx response whose
payload is a non-empty string, or a non-empty dict, makes the loop raise
an uncaught TypeError (string subscripted with a string) instead of
reaching the success print; and a non-2xx response with a list payload
is still scanned and can still raise the server-failure exception after
printing its "skipping" message. -/
theorem failed_experiments_check_not_skipped (j : PyVal) (s : String) (hs : s ≠ "") :
    (checkJobSuccess j ⟨200, .str s⟩).1 = ["Expected response to be list, skipping..."] ∧
    (checkJobSuccess j ⟨200, .str s⟩).2 = .exnRaised ∧
    (checkJobSuccess j ⟨200, .dict [("k", .int 0)]⟩).2 = .exnRaised ∧
    checkJobSuccess (.str "job1") ⟨500, .list [.dict [("job_id", .str "job1")]]⟩ =
      (["Unable to get failed experiments, skipping..."], .serverFailed) := by
  refine ⟨rfl, ?_, rfl, rfl⟩
  have hd : s.data ≠ [] := by
    intro hnil
    apply hs
    cases s
    simp_all
  obtain ⟨c, cs, hcs⟩ : ∃ c cs, s.data = c :: cs := by
    cases hdata : s.data with
    | nil => exact absurd hdata hd
    | cons c cs => exact ⟨c, cs, rfl⟩
  show checkFailedLoop j ((s.toList).map fun c => PyVal.str (String.singleton c)) = .exnRaised
  rw [show s.toList = s.data from rfl, hcs]
  rfl

/-- Witness for C9 at a concrete string payload. -/
theorem failed_experiments_check_not_skipped_witness :
    (checkJobSuccess (PyVal.str "job1") ⟨200, .str "oops"⟩).1 =
      ["Expected response to be list, skipping..."] ∧
    (checkJobSuccess (PyVal.str "job1") ⟨200, .str "oops"⟩).2 = .exnRaised ∧
    (checkJobSuccess (PyVal.str "job1") ⟨200, .dict [("k", .int 0)]⟩).2 = .exnRaised ∧
    checkJobSuccess (.str "job1") ⟨500, .list [.dict [("job_id", .str "job1")]]⟩ =
      (["Unable to get failed experiments, skipping..."], .serverFailed) :=
  failed_experiments_check_not_skipped (PyVal.str "job1") "oops" (by decide)

end Paropt

namespace ParoptAuth

/-- C2 counterexample: the claim fails on the code.  With a refresh
token stored and a network that raises `NetworkError` on revocation, the
pre-revocation step of the login flow (auth.py line 36, calling
`_revoke_current_tokens`, which has no exception handling) does NOT let
the flow complete: the error escapes and no store is persisted. -/
theorem login_pre_revocation_not_best_effort_cex :
    loginStoreStep (fun _ => .networkError) [(OptName.rt, "rtok")] ⟨"atok", "rtok", "999"⟩ =
      .networkErrorRaised ∧
    ∀ s : Store, loginStoreStep (fun _ => .networkError) [(OptName.rt, "rtok")]
      ⟨"atok", "rtok", "999"⟩ ≠ .completed s := by
  constructor
  · rfl
  · intro s h
    exact LoginOutcome.noConfusion
      ((rfl : LoginOutcome.networkErrorRaised =
          loginStoreStep (fun _ => .networkError) [(OptName.rt, "rtok")]
            ⟨"atok", "rtok", "999"⟩).trans h)

/-- C2 amended: the pre-revocation step of the login flow is not
best-effort.  Whenever `_revoke_current_tokens` hits a `NetworkError`,
the exception propagates out of the login flow uncaught and the newly
exchanged tokens are never persisted. -/
theorem login_pre_revocation_network_error_propagates
    (net : String → NetResult) (store : Store) (tkn : TokenResponse)
    (h : _revoke_current_tokens net store = .networkError) :
    loginStoreStep net store tkn = .networkErrorRaised := by
  simp [loginStoreStep, h]

/-- Witness for the amended C2 at a concrete store and failing network. -/
theorem login_pre_revocation_network_error_propagates_witness :
    loginStoreStep (fun _ => .networkError) [(OptName.rt, "rtok")]
      ⟨"atok", "rtok2", "999"⟩ = .networkErrorRaised :=
  login_pre_revocation_network_error_propagates (fun _ => .networkError)
    [(OptName.rt, "rtok")] ⟨"atok", "rtok2", "999"⟩ rfl

/-- C3: the claim fails on the code (the code is the slip: the spec's
own open question flags it).  `do_login_flow` binds `PAROPT_SCOPE` on
auth.py line 24 but line 27 passes `requested_scopes=FUNCX_SCOPE`, an
identifier that is nowhere defined or imported in the module, so every
invocation of the login flow raises `NameError` there — the
undefined-identifier branch is always taken, and the OAuth2 flow is
never started with the defined scope constant. -/
theorem do_login_flow_raises_nameError :
    (∀ (net : String → NetResult) (store : Store) (tkn : TokenResponse),
      do_login_flow net store tkn = .nameError) ∧
    resolveName loginFlowScopeNames "PAROPT_SCOPE" = .ok "PAROPT_SCOPE" ∧
    resolveName loginFlowScopeNames "FUNCX_SCOPE" = .error () :=
  ⟨fun _ _ _ => rfl, rfl, rfl⟩

/-- C4: when `logout` is called on a store holding refresh and access
tokens (and the expiry entry) and the remote revocation of the refresh
token raises a `NetworkError`, the logout aborts immediately and the
store is returned completely unchanged — refresh token, access token
and expiry entry all remain, so a later logout can retry revocation. -/
theorem logout_network_error_leaves_store_intact
    (net : String → NetResult) (store : Store)
    (hrt : tokenFalsy (lookup_option store OptName.rt) = false)
    (hat : tokenFalsy (lookup_option store OptName.accessTok) = false)
    (hexp : lookup_option store OptName.atExpires ≠ Option.none)
    (hnet : net ((lookup_option store OptName.rt).getD "") = .networkError) :
    logout net store = store := by
  simp [logout, logoutLoop, hrt, hnet]

/-- Witness for C4 at a concrete fully-populated store. -/
theorem logout_network_error_leaves_store_intact_witness :
    logout (fun _ => .networkError)
      [(OptName.rt, "rtok"), (OptName.accessTok, "atok"), (OptName.atExpires, "999")] =
      [(OptName.rt, "rtok"), (OptName.accessTok, "atok"), (OptName.atExpires, "999")] :=
  logout_network_error_leaves_store_intact (fun _ => .networkError)
    [(OptName.rt, "rtok"), (OptName.accessTok, "atok"), (OptName.atExpires, "999")]
    (by decide) (by decide) (by decide) rfl

end ParoptAuth

namespace Paropt

/-- C5: (1) every poll whose status is outside 200-299 or whose payload
is not a list counts exactly one soft failure and the loop continues
with the original deadline unchanged (the `timeout` argument is the
same on both sides); (2) whenever three consecutive polls return a
non-2xx status — each of the three still happening before the deadline,
and every earlier poll having either soft-failed or shown the job
running — `waitForJob` ends with the too-many-failed-calls failure and
not the timeout failure, regardless of whether the deadline has also
been reached by then. -/
theorem wait_soft_failure_counting_and_three_consecutive :
    (∀ (job_id : String) (timeout : Int) (clock : Nat → Int)
       (polls : Nat → HTTPResponse) (fuel k n_fails : Nat),
      clock k < timeout → n_fails < MAX_FAILS →
      (httpOK (polls k) = false ∨ isPyList (polls k).data = false) →
      waitLoop job_id timeout clock polls (fuel + 1) k n_fails =
        waitLoop job_id timeout clock polls fuel (k + 1) (n_fails + 1)) ∧
    (∀ (job_id : String) (max_wait t0 : Int) (clock : Nat → Int)
       (polls : Nat → HTTPResponse) (m fuel : Nat),
      m + 3 < fuel →
      (∀ i, i < m → clock i < waitTimeout t0 max_wait) →
      (∀ i, i < m → stepClass job_id (polls i) = .soft ∨
        stepClass job_id (polls i) = .presentOk) →
      httpOK (polls m) = false → httpOK (polls (m + 1)) = false →
      httpOK (polls (m + 2)) = false →
      clock m < waitTimeout t0 max_wait → clock (m + 1) < waitTimeout t0 max_wait →
      clock (m + 2) < waitTimeout t0 max_wait →
      waitForJob job_id max_wait t0 clock polls fuel = .tooManyFails) := by
  constructor
  · intro job_id timeout clock polls fuel k n_fails hck hn h
    exact waitLoop_step_soft job_id timeout clock polls fuel k n_fails ⟨hck, hn⟩
      (stepClass_soft_of job_id (polls k) h)
  · intro job_id max_wait t0 clock polls m fuel hfuel hclk hcls h0 h1 h2 hc0 hc1 hc2
    have s0 : stepClass job_id (polls m) = .soft :=
      stepClass_soft_of job_id (polls m) (Or.inl h0)
    have s1 : stepClass job_id (polls (m + 1)) = .soft :=
      stepClass_soft_of job_id (polls (m + 1)) (Or.inl h1)
    have s2 : stepClass job_id (polls (m + 2)) = .soft :=
      stepClass_soft_of job_id (polls (m + 2)) (Or.inl h2)
    have hcount : MAX_FAILS ≤ 0 + countSoftFrom job_id polls 0 (m + 3) := by
      have e1 := countSoftFrom_succ_right job_id polls (m + 2) 0
      have e2 := countSoftFrom_succ_right job_id polls (m + 1) 0
      have e3 := countSoftFrom_succ_right job_id polls m 0
      simp only [Nat.zero_add] at e1 e2 e3
      rw [show m + 3 = m + 2 + 1 from rfl, e1, e2, e3, s0, s1, s2]
      simp [MAX_FAILS]
    unfold waitForJob
    apply waitLoop_reaches_tooMany job_id (waitTimeout t0 max_wait) clock polls
      (m + 3) fuel 0 0 hfuel (by omega) hcount
    · intro i hi
      have : i < m ∨ i = m ∨ i = m + 1 ∨ i = m + 2 := by omega
      rcases this with h | rfl | rfl | rfl
      · simpa using hclk i h
      · simpa using hc0
      · simpa using hc1
      · simpa using hc2
    · intro i hi
      have : i < m ∨ i = m ∨ i = m + 1 ∨ i = m + 2 := by omega
      rcases this with h | rfl | rfl | rfl
      · simpa using hcls i h
      · simpa using Or.inl s0
      · simpa using Or.inl s1
      · simpa using Or.inl s2

/-- Witness for C5: a soft step at concrete arguments, and a wait in
which the very first three polls are non-2xx ending in the
too-many-failed-calls failure. -/
theorem wait_soft_failure_counting_and_three_consecutive_witness :
    waitLoop "job1" 100 (fun _ => 0) (fun _ => ⟨500, PyVal.none⟩) 4 0 0 =
      waitLoop "job1" 100 (fun _ => 0) (fun _ => ⟨500, PyVal.none⟩) 3 1 1 ∧
    waitForJob "job1" 5 0 (fun _ => 0) (fun _ => ⟨500, PyVal.none⟩) 10 = .tooManyFails :=
  ⟨wait_soft_failure_counting_and_three_consecutive.1 "job1" 100 (fun _ => 0)
      (fun _ => ⟨500, PyVal.none⟩) 3 0 0 (by decide) (by decide) (Or.inl rfl),
   wait_soft_failure_counting_and_three_consecutive.2 "job1" 5 0 (fun _ => 0)
      (fun _ => ⟨500, PyVal.none⟩) 0 10 (by omega)
      (fun i hi => absurd hi (by omega)) (fun i hi => absurd hi (by omega))
      rfl rfl rfl (by decide) (by decide) (by decide)⟩

/-- C6: with `max_wait ≥ 0` the deadline is `t0 + max_wait * 60`; if the
clock reaches that deadline at some check while every earlier poll
happened before the deadline and either soft-failed or showed the job
still running, and fewer than `MAX_FAILS` soft failures accumulated,
then `waitForJob` fails with the timeout kind. -/
theorem wait_deadline_timeout (job_id : String) (max_wait t0 : Int)
    (clock : Nat → Int) (polls : Nat → HTTPResponse) (fuel m : Nat)
    (hmw : 0 ≤ max_wait) (hfuel : m < fuel)
    (hdead : t0 + max_wait * 60 ≤ clock m)
    (hpre : ∀ i, i < m → clock i < t0 + max_wait * 60)
    (hcls : ∀ i, i < m → stepClass job_id (polls i) = .soft ∨
      stepClass job_id (polls i) = .presentOk)
    (hcnt : countSoftFrom job_id polls 0 m < MAX_FAILS) :
    waitForJob job_id max_wait t0 clock polls fuel = .timeoutFail := by
  have htime : waitTimeout t0 max_wait = t0 + max_wait * 60 := by
    unfold waitTimeout
    rw [if_neg (by omega)]
  unfold waitForJob
  rw [htime]
  rw [waitLoop_run_initial job_id (t0 + max_wait * 60) clock polls m fuel 0 0
    (by omega) (by simpa using hcnt) (by intro i hi; simpa using hpre i hi)
    (by intro i hi; simpa using hcls i hi)]
  have hfm : fuel - m = (fuel - m - 1) + 1 := by omega
  rw [hfm, waitLoop_exit job_id (t0 + max_wait * 60) clock polls (fuel - m - 1)
      (0 + m) (0 + countSoftFrom job_id polls 0 m)
      (by
        simp only [Nat.zero_add]
        intro hcontra
        exact absurd hcontra.1 (by omega)),
    if_neg (by omega)]

/-- Witness for C6: `max_wait = 0` with the clock already past the
deadline at the first check. -/
theorem wait_deadline_timeout_witness :
    waitForJob "job1" 0 0 (fun _ => 5) (fun _ => ⟨200, PyVal.list []⟩) 1 = .timeoutFail :=
  wait_deadline_timeout "job1" 0 0 (fun _ => 5) (fun _ => ⟨200, PyVal.list []⟩) 1 0
    (by decide) (by omega) (by decide)
    (fun i hi => absurd hi (by omega)) (fun i hi => absurd hi (by omega)) (by decide)

/-- C7: with `max_wait < 0` the deadline is the fixed 24-hour ceiling
`t0 + 86400`; and in every scenario where, within that window and with
fewer than `MAX_FAILS` soft failures, a well-formed poll shows the job
gone from the running list, `waitForJob` returns success — in
particular it does not produce the timeout failure. -/
theorem wait_negative_max_wait_ceiling_and_success :
    (∀ t0 max_wait : Int, max_wait < 0 → waitTimeout t0 max_wait = t0 + 86400) ∧
    (∀ (job_id : String) (max_wait t0 : Int) (clock : Nat → Int)
       (polls : Nat → HTTPResponse) (fuel m : Nat),
      max_wait < 0 → m < fuel →
      (∀ i, i ≤ m → clock i < t0 + 86400) →
      (∀ i, i < m → stepClass job_id (polls i) = .soft ∨
        stepClass job_id (polls i) = .presentOk) →
      countSoftFrom job_id polls 0 m < MAX_FAILS →
      stepClass job_id (polls m) = .absentOk →
      waitForJob job_id max_wait t0 clock polls fuel = .success ∧
      waitForJob job_id max_wait t0 clock polls fuel ≠ .timeoutFail) := by
  constructor
  · intro t0 max_wait h
    unfold waitTimeout
    rw [if_pos h]
    rfl
  · intro job_id max_wait t0 clock polls fuel m hneg hfuel hclk hcls hcnt habs
    have htime : waitTimeout t0 max_wait = t0 + 86400 := by
      unfold waitTimeout
      rw [if_pos hneg]
      rfl
    have hsucc : waitForJob job_id max_wait t0 clock polls fuel = .success := by
      unfold waitForJob
      rw [htime]
      rw [waitLoop_run_initial job_id (t0 + 86400) clock polls m fuel 0 0
        (by omega) (by simpa using hcnt)
        (by intro i hi; simpa using hclk i (by omega))
        (by intro i hi; simpa using hcls i hi)]
      have hfm : fuel - m = (fuel - m - 1) + 1 := by omega
      rw [hfm]
      apply waitLoop_step_absent job_id (t0 + 86400) clock polls (fuel - m - 1)
        (0 + m) (0 + countSoftFrom job_id polls 0 m)
      · constructor
        · simpa using hclk m (by omega)
        · omega
      · simpa using habs
    exact ⟨hsucc, by rw [hsucc]; decide⟩

/-- Witness for C7: an unbounded wait whose first poll already shows the
job absent. -/
theorem wait_negative_max_wait_ceiling_and_success_witness :
    waitTimeout 0 (-1) = 0 + 86400 ∧
    (waitForJob "job1" (-1) 0 (fun _ => 0) (fun _ => ⟨200, PyVal.list []⟩) 1 = .success ∧
     waitForJob "job1" (-1) 0 (fun _ => 0) (fun _ => ⟨200, PyVal.list []⟩) 1 ≠ .timeoutFail) :=
  ⟨wait_negative_max_wait_ceiling_and_success.1 0 (-1) (by decide),
   wait_negative_max_wait_ceiling_and_success.2 "job1" (-1) 0 (fun _ => 0)
     (fun _ => ⟨200, PyVal.list []⟩) 1 0 (by decide) (by omega)
     (by intro i hi; interval_cases i <;> decide)
     (fun i hi => absurd hi (by omega)) (by decide) rfl⟩

/-- C8: (1) a successful, well-formed poll that still lists the job
continues the loop with the soft-failure counter exactly unchanged — it
is never reset or decreased; (2) consequently, whenever the polls
performed during a wait accumulate `MAX_FAILS` soft failures in total —
even separated by arbitrarily many successful polls showing the job
still running — `waitForJob` ends with the too-many-failed-calls
failure. -/
theorem wait_fail_counter_monotone_cumulative :
    (∀ (job_id : String) (timeout : Int) (clock : Nat → Int)
       (polls : Nat → HTTPResponse) (fuel k n_fails : Nat),
      clock k < timeout → n_fails < MAX_FAILS →
      stepClass job_id (polls k) = .presentOk →
      waitLoop job_id timeout clock polls (fuel + 1) k n_fails =
        waitLoop job_id timeout clock polls fuel (k + 1) n_fails) ∧
    (∀ (job_id : String) (max_wait t0 : Int) (clock : Nat → Int)
       (polls : Nat → HTTPResponse) (fuel m : Nat),
      m < fuel →
      (∀ i, i < m → clock i < waitTimeout t0 max_wait) →
      (∀ i, i < m → stepClass job_id (polls i) = .soft ∨
        stepClass job_id (polls i) = .presentOk) →
      MAX_FAILS ≤ countSoftFrom job_id polls 0 m →
      waitForJob job_id max_wait t0 clock polls fuel = .tooManyFails) := by
  constructor
  · intro job_id timeout clock polls fuel k n_fails hck hn hc
    exact waitLoop_step_present job_id timeout clock polls fuel k n_fails ⟨hck, hn⟩ hc
  · intro job_id max_wait t0 clock polls fuel m hfuel hclk hcls hcnt
    unfold waitForJob
    apply waitLoop_reaches_tooMany job_id (waitTimeout t0 max_wait) clock polls
      m fuel 0 0 hfuel (by omega) (by simpa using hcnt)
    · intro i hi
      simpa using hclk i hi
    · intro i hi
      simpa using hcls i hi

/-- Witness for C8: a present step at concrete arguments, and a wait
whose three soft failures are separated by successful polls that still
list the job. -/
theorem wait_fail_counter_monotone_cumulative_witness :
    waitLoop "job1" 100 (fun _ => 0)
      (fun _ => ⟨200, PyVal.list [.dict [("job_id", .str "job1")]]⟩) 4 0 0 =
      waitLoop "job1" 100 (fun _ => 0)
        (fun _ => ⟨200, PyVal.list [.dict [("job_id", .str "job1")]]⟩) 3 1 0 ∧
    waitForJob "job1" (-1) 0 (fun _ => 0)
      (fun k => if k % 2 = 0 then ⟨500, PyVal.none⟩
        else ⟨200, PyVal.list [.dict [("job_id", .str "job1")]]⟩) 10 = .tooManyFails :=
  ⟨wait_fail_counter_monotone_cumulative.1 "job1" 100 (fun _ => 0)
      (fun _ => ⟨200, PyVal.list [.dict [("job_id", .str "job1")]]⟩) 3 0 0
      (by decide) (by decide) rfl,
   wait_fail_counter_monotone_cumulative.2 "job1" (-1) 0 (fun _ => 0)
      (fun k => if k % 2 = 0 then ⟨500, PyVal.none⟩
        else ⟨200, PyVal.list [.dict [("job_id", .str "job1")]]⟩) 10 5 (by omega)
      (by intro i hi; interval_cases i <;> decide)
      (by intro i hi; interval_cases i
          · exact Or.inl (by decide)
          · exact Or.inr (by decide)
          · exact Or.inl (by decide)
          · exact Or.inr (by decide)
          · exact Or.inl (by decide))
      (by decide)⟩

end Paropt
